import Mathlib

/-!
Shallow embedding of `src/SearchAndDelete.tsx` (the `SearchAndDelete` React
component of the `sanity-search-and-delete` package) and proofs about its
observable behaviour.

The component keeps transient UI state (search term, selected document type,
fetched results, selection set, status message) and exposes four operations:
`buildQuery` (lines 94-135), `handleSearch` (lines 140-166),
`toggleItemSelection` (lines 171-179) and `handleDelete` (lines 199-253),
plus `selectAll` / `clearSelection`.  Network effects (`client.fetch`,
`transaction.commit`) are modelled as environment parameters: the outcome a
call would return is passed in, and the calls an invocation makes are
returned as data, so that "no network call is made" is a provable statement.

JavaScript `Set<string>` iteration order is insertion order; the selection is
therefore modelled as a duplicate-free `List String` in insertion order.
JavaScript `Array.prototype.slice(i, i + n)` is `(List.drop i).take n`.
-/

namespace SearchAndDelete

/-- Embedding of the `SearchResult` interface (lines 27-33): `_id`, `_type`
and the optional display fields the projection fetches. -/
structure SearchResult where
  idStr : String
  typeStr : String
  title : Option String
  name : Option String
  slug : Option String
  deriving DecidableEq, Repr

/-- Embedding of the component state hooks (lines 58-68) that the verified
operations read or write.  Transient presentation flags (`isSearching`,
`isDeleting`, `showConfirmDialog`) are set and restored inside each
invocation's `finally` block and are omitted. -/
structure ComponentState where
  searchQuery : String
  selectedType : String
  searchResults : List SearchResult
  selectedItems : List String
  availableTypes : List String
  customGroqQuery : String
  useCustomQuery : Bool
  message : String
  deriving DecidableEq, Repr

/-- Embedding of `String.prototype.trim`: strips leading and trailing
whitespace from the character sequence.  Defined on the underlying character
list so that concrete instances reduce inside the kernel. -/
def jsTrim (s : String) : String :=
  ⟨((s.data.dropWhile Char.isWhitespace).reverse.dropWhile Char.isWhitespace).reverse⟩

/-- Embedding of the batching loop header (line 211) together with the slice
on line 212: the loop visits `i = 0, batchSize, 2·batchSize, …` and takes
`itemsToDelete.slice(i, i + batchSize)`; advancing `i` by `batchSize`
corresponds to dropping `batchSize` elements of the remaining suffix.
The JavaScript loop never terminates when `batchSize = 0`; that divergent
case is mapped to `[]` here and every theorem assumes `1 ≤ batchSize`. -/
def deleteBatches (batchSize : Nat) (items : List String) : List (List String) :=
  if batchSize = 0 then []
  else
    match items with
    | [] => []
    | x :: xs => ((x :: xs).take batchSize) :: deleteBatches batchSize ((x :: xs).drop batchSize)
termination_by items.length
decreasing_by
  simp only [List.length_drop, List.length_cons]
  omega

/-- Accumulated outcome of the batching loop (lines 206-231): the running
`deletedCount`, the collected `errors`, and the list of batches actually
submitted as delete transactions (`transaction.commit()` calls), in order. -/
structure DeleteRun where
  deletedCount : Nat
  errors : List String
  commits : List (List String)
  deriving DecidableEq, Repr

/-- Embedding of the loop body (lines 213-230) as a pass over the batch list
produced by `deleteBatches`.  `k` is the 0-based batch ordinal; the source
tags a failed batch with `i / batchSize + 1` where `i = k * batchSize` is
the loop index, so the tag equals `k + 1`.  `commit k` is the outcome the
store returns for the k-th `transaction.commit()`.  In dry-run mode no
transaction is created (line 214-216): the batch is only counted.  On commit
failure the batch adds nothing to the count, one tagged message is appended,
and the loop continues (lines 226-229). -/
def processBatches (dryRun : Bool) (commit : Nat → Except String Unit) (k : Nat) :
    List (List String) → DeleteRun
  | [] => ⟨0, [], []⟩
  | batch :: rest =>
    if dryRun then
      let r := processBatches dryRun commit (k + 1) rest
      ⟨batch.length + r.deletedCount, r.errors, r.commits⟩
    else
      match commit k with
      | Except.ok _ =>
        let r := processBatches dryRun commit (k + 1) rest
        ⟨batch.length + r.deletedCount, r.errors, batch :: r.commits⟩
      | Except.error e =>
        let r := processBatches dryRun commit (k + 1) rest
        ⟨r.deletedCount, ("Batch " ++ toString (k + 1) ++ ": " ++ e) :: r.errors,
          batch :: r.commits⟩

/-- Payload handed to the `onComplete` callback (line 243). -/
structure DeleteResult where
  deleted : Nat
  errors : List String
  deriving DecidableEq, Repr

/-- Everything observable about one `handleDelete` invocation: the component
state it leaves behind, the `onComplete` payload (`none` when the callback
is not invoked), and the batches submitted as delete transactions. -/
structure DeleteInvocation where
  finalState : ComponentState
  completed : Option DeleteResult
  commits : List (List String)
  deriving DecidableEq, Repr

/-- Embedding of `handleDelete` (lines 199-253).  Line 200 returns at once
when the selection is empty.  Otherwise the loop of lines 211-231 runs over
the batches of `Array.from(selectedItems)`; afterwards (lines 233-243) the
result list is filtered by membership of the selection, the selection is
cleared, the final status message is composed and `onComplete` receives
`{deleted, errors}`.  The outer catch (lines 245-248) is unreachable in this
model because every commit failure is absorbed by the inner try. -/
def handleDelete (dryRun : Bool) (batchSize : Nat) (commit : Nat → Except String Unit)
    (st : ComponentState) : DeleteInvocation :=
  if st.selectedItems.length = 0 then ⟨st, none, []⟩
  else
    let itemsToDelete := st.selectedItems
    let run := processBatches dryRun commit 0 (deleteBatches batchSize itemsToDelete)
    let remainingResults := st.searchResults.filter (fun item => !(itemsToDelete.contains item.idStr))
    let finalMessage :=
      if dryRun then "DRY RUN: Would delete " ++ toString run.deletedCount ++ " items"
      else "Successfully deleted " ++ toString run.deletedCount ++ " items" ++
        (if run.errors.length > 0 then " (" ++ toString run.errors.length ++ " errors)" else "")
    let newState := { st with
      searchResults := remainingResults
      selectedItems := []
      message := finalMessage }
    ⟨newState, some ⟨run.deletedCount, run.errors⟩, run.commits⟩

/-- Embedding of the specific-type filter condition pushed on line 104:
the template literal producing a type-equality GROQ condition. -/
def typeEqCondition (selectedType : String) : String :=
  "_type == \"" ++ selectedType ++ "\""

/-- Embedding of the all-known-types filter condition pushed on line 106:
quotes every available type and joins them with a comma inside a
type-membership GROQ condition. -/
def typeInCondition (availableTypes : List String) : String :=
  "_type in [" ++
    String.intercalate (", ") (availableTypes.map (fun t => "\"" ++ t ++ "\"")) ++ "]"

/-- Embedding of the free-text filter condition pushed on lines 112-117,
with the exact whitespace of the source template literal: a case-insensitive
match of the lowercased term against title, name, slug and the portion of
the identifier after its type prefix. -/
def textCondition (searchTerm : String) : String :=
  "(\n        lower(title) match \"*" ++ searchTerm ++
    "*\" ||\n        lower(name) match \"*" ++ searchTerm ++
    "*\" ||\n        lower(slug.current) match \"*" ++ searchTerm ++
    "*\" ||\n        lower(string::split(string(_id), \".\")[1]) match \"*" ++ searchTerm ++
    "*\"\n      )"

/-- Embedding of the projection block appended on lines 124-132: the fixed
field list the query requests for display (identifier, type, title, name,
slug, created/updated timestamps), with the source's exact whitespace. -/
def projectionBlock : String :=
  "\x7b\n      _id,\n      _type,\n      title,\n      name,\n      slug,\n      _createdAt,\n      _updatedAt\n    \x7d"

/-- Embedding of the `conditions` array built on lines 100-118: a type
condition (specific type when one is selected, else the all-known-types
condition when any types are loaded, else none) followed by the text
condition when the trimmed search term is non-empty. -/
def buildConditions (selectedType : String) (availableTypes : List String)
    (searchQuery : String) : List String :=
  (if selectedType ≠ "all" then [typeEqCondition selectedType]
   else if availableTypes.length > 0 then [typeInCondition availableTypes]
   else []) ++
  (if jsTrim searchQuery ≠ "" then [textCondition ((jsTrim searchQuery).toLower)] else [])

/-- Embedding of `buildQuery` (lines 94-135).  When the custom-query flag is
set and the custom text is non-blank the custom text is returned verbatim
(lines 95-97); otherwise the conditions are joined with a conjunction inside
the filter brackets, and the slice capping the result at `maxResults`
together with the fixed projection is appended (lines 99-134). -/
def buildQuery (useCustomQuery : Bool) (customGroqQuery : String) (selectedType : String)
    (availableTypes : List String) (searchQuery : String) (maxResults : Nat) : String :=
  if useCustomQuery = true ∧ jsTrim customGroqQuery ≠ "" then customGroqQuery
  else
    let conditions := buildConditions selectedType availableTypes searchQuery
    let query := "*["
    let query :=
      if conditions.length > 0 then query ++ String.intercalate (" && ") conditions else query
    query ++ "][0..." ++ toString maxResults ++ "] " ++ projectionBlock

/-- Everything observable about one `handleSearch` invocation: the component
state it leaves behind, the query strings sent to `client.fetch`, and the
`onError` payload (`none` when the error callback is not invoked). -/
structure SearchInvocation where
  finalState : ComponentState
  fetchCalls : List String
  errorCallback : Option String
  deriving DecidableEq, Repr

/-- Embedding of `handleSearch` (lines 140-166).  Lines 141-144 reject a
blank trimmed term with custom-query mode off: only the status message is
set and no fetch is issued.  Otherwise exactly one fetch with the built
query is issued; on success (lines 153-157) the result list is replaced
wholesale, the selection is cleared and a count message is shown; on failure
(lines 158-162) only the status message changes and `onError` receives the
error message.  `fetchOutcome` is the environment's answer to the fetch. -/
def handleSearch (maxResults : Nat) (fetchOutcome : Except String (List SearchResult))
    (st : ComponentState) : SearchInvocation :=
  if jsTrim st.searchQuery = "" ∧ st.useCustomQuery = false then
    ⟨{ st with message := "Please enter a search term or use custom query" }, [], none⟩
  else
    let query := buildQuery st.useCustomQuery st.customGroqQuery st.selectedType
      st.availableTypes st.searchQuery maxResults
    match fetchOutcome with
    | Except.ok results =>
      let newState := { st with
        searchResults := results
        selectedItems := []
        message := "Found " ++ toString results.length ++ " documents" }
      ⟨newState, [query], none⟩
    | Except.error errorMessage =>
      ⟨{ st with message := "Search error: " ++ errorMessage }, [query], some errorMessage⟩

/-- Embedding of `toggleItemSelection` (lines 171-179): membership of `id`
in the selection set is flipped, with no check against the result list.
The JavaScript `Set` insertion order is modelled by appending on add. -/
def toggleItemSelection (id : String) (st : ComponentState) : ComponentState :=
  if st.selectedItems.contains id then
    { st with selectedItems := st.selectedItems.filter (fun x => x != id) }
  else
    { st with selectedItems := st.selectedItems ++ [id] }

/-- Embedding of `selectAll` (lines 184-187): the selection becomes the set
of identifiers of the current result list (`Set` construction removes
duplicates, keeping first occurrences). -/
def selectAll (st : ComponentState) : ComponentState :=
  { st with selectedItems := (st.searchResults.map (fun item => item.idStr)).eraseDups }

/-- Embedding of `clearSelection` (lines 192-194). -/
def clearSelection (st : ComponentState) : ComponentState :=
  { st with selectedItems := [] }

/-- Concrete document fixture used by the example states below. -/
def docA : SearchResult := ⟨"post.a1", "post", some ("Alpha"), none, none⟩

/-- Concrete document fixture used by the example states below. -/
def docB : SearchResult := ⟨"post.b2", "post", none, some ("Beta"), none⟩

/-- Concrete document fixture used by the example states below. -/
def docC : SearchResult := ⟨"page.c3", "page", none, none, some ("gamma")⟩

/-- Concrete state with an empty selection set. -/
def emptySelectionState : ComponentState :=
  ⟨"acme", "all", [docA, docB], [], [], "", false, ""⟩

/-- Concrete state with three fetched results and five selected identifiers,
so that batch size 2 yields three batches of sizes 2, 2, 1. -/
def exampleRunState : ComponentState :=
  ⟨"", "all", [docA, docB, docC], ["post.a1", "post.b2", "page.c3", "page.d4", "page.e5"],
    [], "", false, ""⟩

/-- Concrete state whose selection is a subset of the result identifiers. -/
def selectionState : ComponentState :=
  ⟨"a", "all", [docA, docB], ["post.a1"], [], "", false, ""⟩

/-- Concrete state with a blank (whitespace-only) search term and custom-query
mode off, holding prior results and a prior selection. -/
def blankSearchState : ComponentState :=
  ⟨"   ", "all", [docA], ["post.a1"], [], "", false, "old"⟩

/-- Concrete state with a non-blank search term, used to exercise the search
paths past the blank-term gate. -/
def activeSearchState : ComponentState :=
  ⟨"acme", "all", [docA], ["post.a1"], ["post"], "", false, ""⟩

/-- Commit environment in which the second transaction (batch ordinal 1)
fails and every other transaction succeeds. -/
def commitFailSecond : Nat → Except String Unit :=
  fun k => if k = 1 then Except.error ("network failure") else Except.ok ()

/-- Commit environment in which every transaction succeeds. -/
def commitAllOk : Nat → Except String Unit := fun _ => Except.ok ()

theorem deleteBatches_nil (batchSize : Nat) : deleteBatches batchSize [] = [] := by
  rw [deleteBatches.eq_def]
  split <;> rfl

theorem deleteBatches_cons (batchSize : Nat) (hB : 1 ≤ batchSize) (x : String)
    (xs : List String) :
    deleteBatches batchSize (x :: xs) =
      ((x :: xs).take batchSize) :: deleteBatches batchSize ((x :: xs).drop batchSize) := by
  rw [deleteBatches.eq_def]
  have : ¬ batchSize = 0 := by omega
  simp [this]

theorem deleteBatches_flatten (batchSize : Nat) (hB : 1 ≤ batchSize) :
    ∀ items : List String, (deleteBatches batchSize items).flatten = items := by
  suffices h : ∀ n, ∀ items : List String, items.length = n →
      (deleteBatches batchSize items).flatten = items by
    intro items
    exact h items.length items rfl
  intro n
  induction n using Nat.strong_induction_on with
  | _ n ih =>
    intro items hn
    match items with
    | [] => simp [deleteBatches_nil]
    | x :: xs =>
      rw [deleteBatches_cons batchSize hB x xs]
      simp only [List.length_cons] at hn
      have hlt : ((x :: xs).drop batchSize).length < n := by
        simp only [List.length_drop, List.length_cons]
        omega
      rw [List.flatten_cons, ih _ hlt _ rfl, List.take_append_drop]

theorem deleteBatches_sizes (batchSize : Nat) (hB : 1 ≤ batchSize) :
    ∀ items : List String, ∀ c ∈ deleteBatches batchSize items, c.length ≤ batchSize := by
  suffices h : ∀ n, ∀ items : List String, items.length = n →
      ∀ c ∈ deleteBatches batchSize items, c.length ≤ batchSize by
    intro items
    exact h items.length items rfl
  intro n
  induction n using Nat.strong_induction_on with
  | _ n ih =>
    intro items hn
    match items with
    | [] => simp [deleteBatches_nil]
    | x :: xs =>
      rw [deleteBatches_cons batchSize hB x xs]
      simp only [List.length_cons] at hn
      intro c hc
      rcases List.mem_cons.mp hc with h | h
      · subst h
        exact List.length_take_le _ _
      · have hlt : ((x :: xs).drop batchSize).length < n := by
          simp only [List.length_drop, List.length_cons]
          omega
        exact ih _ hlt _ rfl c h

theorem deleteBatches_count (batchSize : Nat) (hB : 1 ≤ batchSize) :
    ∀ items : List String,
      (deleteBatches batchSize items).length = (items.length + batchSize - 1) / batchSize := by
  suffices h : ∀ n, ∀ items : List String, items.length = n →
      (deleteBatches batchSize items).length = (items.length + batchSize - 1) / batchSize by
    intro items
    exact h items.length items rfl
  intro n
  induction n using Nat.strong_induction_on with
  | _ n ih =>
    intro items hn
    match items with
    | [] =>
      simp only [deleteBatches_nil, List.length_nil, Nat.zero_add]
      exact (Nat.div_eq_of_lt (by omega)).symm
    | x :: xs =>
      rw [deleteBatches_cons batchSize hB x xs]
      simp only [List.length_cons] at hn
      have hlt : ((x :: xs).drop batchSize).length < n := by
        simp only [List.length_drop, List.length_cons]
        omega
      rw [List.length_cons, ih _ hlt _ rfl]
      simp only [List.length_drop, List.length_cons]
      rcases Nat.le_total batchSize (xs.length + 1) with hle | hge
      · have h1 : xs.length + 1 - batchSize + batchSize - 1 = xs.length := by omega
        have h2 : xs.length + 1 + batchSize - 1 = (xs.length + 1 - 1) + batchSize := by omega
        rw [h1, h2, Nat.add_div_right _ (by omega)]
        have h3 : xs.length + 1 - 1 = xs.length := by omega
        rw [h3]
      · have h1 : xs.length + 1 - batchSize = 0 := by omega
        rw [h1]
        have h2 : (0 + batchSize - 1) / batchSize = 0 := Nat.div_eq_of_lt (by omega)
        rw [h2]
        have h3 : (xs.length + 1 + batchSize - 1) / batchSize = 1 := by
          apply Nat.div_eq_of_lt_le
          · omega
          · omega
        rw [h3]

theorem processBatches_dry (commit : Nat → Except String Unit) :
    ∀ (bs : List (List String)) (k : Nat),
      processBatches true commit k bs = ⟨(bs.map List.length).sum, [], []⟩ := by
  intro bs
  induction bs with
  | nil => intro k; rfl
  | cons b rest ih =>
    intro k
    simp [processBatches, ih (k + 1)]

theorem processBatches_live (commit : Nat → Except String Unit) :
    ∀ (bs : List (List String)) (k : Nat),
      processBatches false commit k bs =
        ⟨((bs.enumFrom k).map (fun p =>
            match commit p.1 with
            | Except.ok _ => p.2.length
            | Except.error _ => 0)).sum,
          (bs.enumFrom k).filterMap (fun p =>
            match commit p.1 with
            | Except.ok _ => none
            | Except.error e => some ("Batch " ++ toString (p.1 + 1) ++ ": " ++ e)),
          bs⟩ := by
  intro bs
  induction bs with
  | nil => intro k; rfl
  | cons b rest ih =>
    intro k
    rw [List.enumFrom_cons]
    cases hck : commit k with
    | ok u =>
      simp [processBatches, ih (k + 1), hck]
    | error e =>
      simp [processBatches, ih (k + 1), hck]

/-- C1: for every selection (taken in its iteration order) of size N and
every batch size B ≥ 1, the batching loop of `handleDelete` partitions the
identifiers into exactly ceil(N/B) = (N + B - 1) / B consecutive chunks,
every chunk has size at most B, and the concatenation of the chunks in
order is the original identifier sequence. -/
theorem c1_batch_partition (items : List String) (batchSize : Nat) (hB : 1 ≤ batchSize) :
    (deleteBatches batchSize items).length = (items.length + batchSize - 1) / batchSize ∧
    (∀ c ∈ deleteBatches batchSize items, c.length ≤ batchSize) ∧
    (deleteBatches batchSize items).flatten = items :=
  ⟨deleteBatches_count batchSize hB items, deleteBatches_sizes batchSize hB items,
    deleteBatches_flatten batchSize hB items⟩

/-- Witness for C1 at five identifiers and batch size 2, where the partition
is [[a, b], [c, d], [e]]: three chunks, sizes 2, 2, 1. -/
theorem c1_batch_partition_witness :
    1 ≤ 2 ∧
    ((deleteBatches 2 ["a", "b", "c", "d", "e"]).length
        = (["a", "b", "c", "d", "e"].length + 2 - 1) / 2 ∧
      (∀ c ∈ deleteBatches 2 ["a", "b", "c", "d", "e"], c.length ≤ 2) ∧
      (deleteBatches 2 ["a", "b", "c", "d", "e"]).flatten = ["a", "b", "c", "d", "e"]) ∧
    deleteBatches 2 ["a", "b", "c", "d", "e"] = [["a", "b"], ["c", "d"], ["e"]] :=
  ⟨by decide, c1_batch_partition (["a", "b", "c", "d", "e"]) 2 (by decide),
    by simp [deleteBatches]⟩

/-- C6: when the trimmed search term is blank and custom-query mode is off,
`handleSearch` issues no fetch and leaves the prior result list and
selection unchanged; only the local status message is set. -/
theorem c6_blank_search_gate (st : ComponentState) (maxResults : Nat)
    (fetchOutcome : Except String (List SearchResult))
    (hblank : jsTrim st.searchQuery = "") (hcustom : st.useCustomQuery = false) :
    (handleSearch maxResults fetchOutcome st).fetchCalls = [] ∧
    (handleSearch maxResults fetchOutcome st).finalState.searchResults = st.searchResults ∧
    (handleSearch maxResults fetchOutcome st).finalState.selectedItems = st.selectedItems ∧
    (handleSearch maxResults fetchOutcome st).finalState.message
      = "Please enter a search term or use custom query" := by
  unfold handleSearch
  rw [if_pos ⟨hblank, hcustom⟩]
  exact ⟨rfl, rfl, rfl, rfl⟩

/-- Witness for C6 at a concrete state whose search term is whitespace only,
with prior results and a prior selection in place. -/
theorem c6_blank_search_gate_witness :
    jsTrim blankSearchState.searchQuery = "" ∧ blankSearchState.useCustomQuery = false ∧
    ((handleSearch 100 (Except.ok []) blankSearchState).fetchCalls = [] ∧
      (handleSearch 100 (Except.ok []) blankSearchState).finalState.searchResults
        = blankSearchState.searchResults ∧
      (handleSearch 100 (Except.ok []) blankSearchState).finalState.selectedItems
        = blankSearchState.selectedItems ∧
      (handleSearch 100 (Except.ok []) blankSearchState).finalState.message
        = "Please enter a search term or use custom query") :=
  ⟨by decide, by decide,
    c6_blank_search_gate blankSearchState 100 (Except.ok []) (by decide) (by decide)⟩

/-- C8: for every non-blank search term, the built condition list contains
the case-insensitive text condition; with a specific selected type it is
exactly the single-type condition followed by the text condition (so the
all-known-types condition never appears alongside it); with type "all" and
no known types loaded it is exactly the text condition alone. -/
theorem c8_filter_conditions (selectedType : String) (availableTypes : List String)
    (searchQuery : String) (hterm : jsTrim searchQuery ≠ "") :
    textCondition ((jsTrim searchQuery).toLower)
        ∈ buildConditions selectedType availableTypes searchQuery ∧
    (selectedType ≠ "all" →
      buildConditions selectedType availableTypes searchQuery
        = [typeEqCondition selectedType, textCondition ((jsTrim searchQuery).toLower)]) ∧
    (selectedType = "all" ∧ availableTypes = [] →
      buildConditions selectedType availableTypes searchQuery
        = [textCondition ((jsTrim searchQuery).toLower)]) := by
  unfold buildConditions
  rw [if_pos hterm]
  refine ⟨?_, ?_, ?_⟩
  · by_cases hty : selectedType ≠ "all"
    · rw [if_pos hty]
      simp
    · rw [if_neg hty]
      by_cases hav : availableTypes.length > 0
      · rw [if_pos hav]
        simp
      · rw [if_neg hav]
        simp
  · intro hty
    rw [if_pos hty]
    rfl
  · rintro ⟨hall, hempty⟩
    have hne : ¬ selectedType ≠ "all" := by simp [hall]
    rw [if_neg hne, hempty]
    simp

/-- Witness for C8 at term " Acme " (trimming and lowercasing to "acme"),
specific type "post", and known types ["post", "page"]. -/
theorem c8_filter_conditions_witness :
    jsTrim (" Acme ") ≠ "" ∧
    (textCondition ((jsTrim (" Acme ")).toLower)
        ∈ buildConditions ("post") (["post", "page"]) (" Acme ") ∧
      (("post" : String) ≠ "all" →
        buildConditions ("post") (["post", "page"]) (" Acme ")
          = [typeEqCondition ("post"), textCondition ((jsTrim (" Acme ")).toLower)]) ∧
      (("post" : String) = "all" ∧ (["post", "page"] : List String) = [] →
        buildConditions ("post") (["post", "page"]) (" Acme ")
          = [textCondition ((jsTrim (" Acme ")).toLower)])) :=
  ⟨by decide, c8_filter_conditions ("post") (["post", "page"]) (" Acme ") (by decide)⟩

/-- C9: past the blank-term gate, a failed fetch reports the error through
the error callback and a readable status message while leaving the prior
result list and selection untouched, and a successful fetch replaces the
whole result list and clears the selection. -/
theorem c9_search_failure_and_success (st : ComponentState) (maxResults : Nat)
    (results : List SearchResult) (errorMessage : String)
    (hgate : ¬ (jsTrim st.searchQuery = "" ∧ st.useCustomQuery = false)) :
    ((handleSearch maxResults (Except.error errorMessage) st).errorCallback
        = some errorMessage ∧
      (handleSearch maxResults (Except.error errorMessage) st).finalState.message
        = "Search error: " ++ errorMessage ∧
      (handleSearch maxResults (Except.error errorMessage) st).finalState.searchResults
        = st.searchResults ∧
      (handleSearch maxResults (Except.error errorMessage) st).finalState.selectedItems
        = st.selectedItems) ∧
    ((handleSearch maxResults (Except.ok results) st).finalState.searchResults = results ∧
      (handleSearch maxResults (Except.ok results) st).finalState.selectedItems = []) := by
  unfold handleSearch
  rw [if_neg hgate, if_neg hgate]
  exact ⟨⟨rfl, rfl, rfl, rfl⟩, rfl, rfl⟩

/-- Witness for C9 at a concrete state with a non-blank term, a failing
fetch answering "timeout", and a successful fetch answering [docB, docC]. -/
theorem c9_search_failure_and_success_witness :
    ¬ (jsTrim activeSearchState.searchQuery = "" ∧ activeSearchState.useCustomQuery = false) ∧
    (((handleSearch 100 (Except.error ("timeout")) activeSearchState).errorCallback
        = some ("timeout") ∧
      (handleSearch 100 (Except.error ("timeout")) activeSearchState).finalState.message
        = "Search error: " ++ "timeout" ∧
      (handleSearch 100 (Except.error ("timeout")) activeSearchState).finalState.searchResults
        = activeSearchState.searchResults ∧
      (handleSearch 100 (Except.error ("timeout")) activeSearchState).finalState.selectedItems
        = activeSearchState.selectedItems) ∧
      ((handleSearch 100 (Except.ok ([docB, docC])) activeSearchState).finalState.searchResults
        = [docB, docC] ∧
      (handleSearch 100 (Except.ok ([docB, docC])) activeSearchState).finalState.selectedItems
        = [])) :=
  ⟨by decide,
    c9_search_failure_and_success activeSearchState 100 ([docB, docC]) ("timeout") (by decide)⟩

/-- C10: invoking `handleDelete` with an empty selection is a complete
no-op: the returned state is the input state unchanged, no transaction is
committed, and the completion callback is not invoked. -/
theorem c10_empty_selection_noop (dryRun : Bool) (batchSize : Nat)
    (commit : Nat → Except String Unit) (st : ComponentState)
    (h : st.selectedItems = []) :
    handleDelete dryRun batchSize commit st = ⟨st, none, []⟩ := by
  unfold handleDelete
  rw [if_pos (by simp [h])]

/-- Witness for C10 at a concrete state whose selection is empty. -/
theorem c10_empty_selection_noop_witness :
    emptySelectionState.selectedItems = [] ∧
    handleDelete false 10 commitAllOk emptySelectionState = ⟨emptySelectionState, none, []⟩ :=
  ⟨by decide, c10_empty_selection_noop false 10 commitAllOk emptySelectionState (by decide)⟩

/-- C2: in a live (non-preview) run over a nonempty selection, the outcome
handed to the completion callback counts exactly the sizes of the chunks
whose transaction succeeded — a failing chunk contributes zero — and its
error list holds exactly one entry per failing chunk, tagged with the
chunk's ordinal position ("Batch k+1" for 0-based ordinal k), in chunk
order; every chunk is submitted, so processing continues past a failure. -/
theorem c2_live_failure_accounting (st : ComponentState) (batchSize : Nat)
    (commit : Nat → Except String Unit) (hne : st.selectedItems ≠ []) :
    (handleDelete false batchSize commit st).completed =
      some ⟨(((deleteBatches batchSize st.selectedItems).enumFrom 0).map (fun p =>
              match commit p.1 with
              | Except.ok _ => p.2.length
              | Except.error _ => 0)).sum,
            ((deleteBatches batchSize st.selectedItems).enumFrom 0).filterMap (fun p =>
              match commit p.1 with
              | Except.ok _ => none
              | Except.error e => some ("Batch " ++ toString (p.1 + 1) ++ ": " ++ e))⟩ ∧
    (handleDelete false batchSize commit st).commits
      = deleteBatches batchSize st.selectedItems := by
  have hlen : ¬ st.selectedItems.length = 0 := by
    simp [List.length_eq_zero, hne]
  unfold handleDelete
  rw [if_neg hlen]
  simp [processBatches_live]

/-- Witness for C2: a live run over five selected identifiers with batch
size 2, where the second of the three chunks fails: the callback receives
deleted = 2 + 1 = 3 (the combined size of chunks 1 and 3) and exactly one
error referencing chunk 2, and all three chunks were submitted. -/
theorem c2_live_failure_accounting_witness :
    (handleDelete false 2 commitFailSecond exampleRunState).completed
        = some ⟨3, ["Batch 2: network failure"]⟩ ∧
    (handleDelete false 2 commitFailSecond exampleRunState).commits
        = [["post.a1", "post.b2"], ["page.c3", "page.d4"], ["page.e5"]] := by
  have h := c2_live_failure_accounting exampleRunState 2 commitFailSecond (by decide)
  refine ⟨?_, ?_⟩
  · rw [h.1]
    simp [deleteBatches, exampleRunState, commitFailSecond]
    rfl
  · rw [h.2]
    simp [deleteBatches, exampleRunState]

/-- C3 counterexample: the claim covers every selection size N, but at
N = 0 the invocation returns on line 200 before any work: no completion
payload is produced, so a preview run over an empty selection does not
report deleted = 0 with an empty error list. -/
theorem c3_preview_empty_counterexample :
    (handleDelete true 10 commitAllOk emptySelectionState).completed = none ∧
    ¬ (handleDelete true 10 commitAllOk emptySelectionState).completed = some ⟨0, []⟩ := by
  exact ⟨rfl, by decide⟩

/-- C3 amended: for every nonempty selection of size N and every batch size
B ≥ 1, a preview-only (dry-run) invocation reports deleted = N with an
empty error list and never submits a delete transaction. -/
theorem c3_preview_reports_all (st : ComponentState) (batchSize : Nat)
    (commit : Nat → Except String Unit) (hB : 1 ≤ batchSize)
    (hne : st.selectedItems ≠ []) :
    (handleDelete true batchSize commit st).completed
      = some ⟨st.selectedItems.length, []⟩ ∧
    (handleDelete true batchSize commit st).commits = [] := by
  have hlen : ¬ st.selectedItems.length = 0 := by
    simp [List.length_eq_zero, hne]
  have hsum : ((deleteBatches batchSize st.selectedItems).map List.length).sum
      = st.selectedItems.length := by
    rw [← List.length_flatten, deleteBatches_flatten batchSize hB]
  unfold handleDelete
  rw [if_neg hlen]
  simp only [processBatches_dry]
  rw [hsum]
  exact ⟨rfl, trivial⟩

/-- Witness for C3 (amended) at five selected identifiers and batch size 2:
the preview reports deleted = 5, no errors, no submitted transaction. -/
theorem c3_preview_reports_all_witness :
    1 ≤ 2 ∧ exampleRunState.selectedItems ≠ [] ∧
    ((handleDelete true 2 commitAllOk exampleRunState).completed
        = some ⟨exampleRunState.selectedItems.length, []⟩ ∧
      (handleDelete true 2 commitAllOk exampleRunState).commits = []) :=
  ⟨by decide, by decide,
    c3_preview_reports_all exampleRunState 2 commitAllOk (by decide) (by decide)⟩

/-- C4: after a delete run over a nonempty selection (any mix of chunk
successes and failures, preview or live), every identifier that was in the
selection is absent from the remaining result list, the selection set is
emptied, and the completion callback is invoked — once per invocation, the
model returning its single payload — with the run's deleted count and its
ordered error-message list. -/
theorem c4_post_run_state (dryRun : Bool) (batchSize : Nat)
    (commit : Nat → Except String Unit) (st : ComponentState)
    (hne : st.selectedItems ≠ []) :
    (∀ item ∈ (handleDelete dryRun batchSize commit st).finalState.searchResults,
        item.idStr ∉ st.selectedItems) ∧
    (handleDelete dryRun batchSize commit st).finalState.selectedItems = [] ∧
    (handleDelete dryRun batchSize commit st).completed
      = some ⟨(processBatches dryRun commit 0
                (deleteBatches batchSize st.selectedItems)).deletedCount,
              (processBatches dryRun commit 0
                (deleteBatches batchSize st.selectedItems)).errors⟩ := by
  have hlen : ¬ st.selectedItems.length = 0 := by
    simp [List.length_eq_zero, hne]
  unfold handleDelete
  rw [if_neg hlen]
  refine ⟨?_, rfl, rfl⟩
  intro item hitem
  have hp := List.of_mem_filter hitem
  simpa using hp

/-- Witness for C4 at a live run over `exampleRunState` (three fetched
results, five selected identifiers, second chunk failing). -/
theorem c4_post_run_state_witness :
    exampleRunState.selectedItems ≠ [] ∧
    ((∀ item ∈ (handleDelete false 2 commitFailSecond
          exampleRunState).finalState.searchResults,
        item.idStr ∉ exampleRunState.selectedItems) ∧
      (handleDelete false 2 commitFailSecond exampleRunState).finalState.selectedItems = [] ∧
      (handleDelete false 2 commitFailSecond exampleRunState).completed
        = some ⟨(processBatches false commitFailSecond 0
                  (deleteBatches 2 exampleRunState.selectedItems)).deletedCount,
                (processBatches false commitFailSecond 0
                  (deleteBatches 2 exampleRunState.selectedItems)).errors⟩) :=
  ⟨by decide, c4_post_run_state false 2 commitFailSecond exampleRunState (by decide)⟩

/-- C5 counterexample: `toggleItemSelection` performs no membership check
against the result list: toggling "ghost", which is not among the result
identifiers of `emptySelectionState`, adds it to the selection instead of
being a no-op or rejected, so the selection is not always a subset of the
current result identifiers. -/
theorem c5_toggle_absent_counterexample :
    "ghost" ∉ emptySelectionState.searchResults.map (fun item => item.idStr) ∧
    "ghost" ∈ (toggleItemSelection ("ghost") emptySelectionState).selectedItems := by
  decide

/-- C5 amended: the toggle flips membership unconditionally, so the
invariant selection ⊆ current result identifiers is preserved exactly when
toggles are applied to identifiers of the current result list, which is how
the component invokes it (each checkbox toggles the id of a rendered
result): under that restriction the subset invariant is preserved. -/
theorem c5_toggle_subset_preserved (st : ComponentState) (id : String)
    (hsub : ∀ x ∈ st.selectedItems, x ∈ st.searchResults.map (fun item => item.idStr))
    (hid : id ∈ st.searchResults.map (fun item => item.idStr)) :
    ∀ x ∈ (toggleItemSelection id st).selectedItems,
      x ∈ st.searchResults.map (fun item => item.idStr) := by
  intro x hx
  unfold toggleItemSelection at hx
  by_cases hc : st.selectedItems.contains id
  · rw [if_pos hc] at hx
    exact hsub x (List.mem_of_mem_filter hx)
  · rw [if_neg hc] at hx
    rcases List.mem_append.mp hx with h | h
    · exact hsub x h
    · rw [List.mem_singleton] at h
      subst h
      exact hid

/-- Witness for C5 (amended): toggling "post.b2", an identifier of the
current result list, keeps the selection inside the result identifiers. -/
theorem c5_toggle_subset_preserved_witness :
    (∀ x ∈ selectionState.selectedItems,
        x ∈ selectionState.searchResults.map (fun item => item.idStr)) ∧
    ("post.b2" ∈ selectionState.searchResults.map (fun item => item.idStr)) ∧
    (∀ x ∈ (toggleItemSelection ("post.b2") selectionState).selectedItems,
        x ∈ selectionState.searchResults.map (fun item => item.idStr)) :=
  ⟨by decide, by decide,
    c5_toggle_subset_preserved selectionState ("post.b2") (by decide) (by decide)⟩

/-- C7: when the custom-query flag is set and the custom text is non-blank,
the builder returns the custom text verbatim; in every other combination of
inputs the built query ends with the slice capping it to the configured
`maxResults` followed by the fixed projection of display fields. -/
theorem c7_query_cap_and_projection (useCustomQuery : Bool)
    (customGroqQuery selectedType : String) (availableTypes : List String)
    (searchQuery : String) (maxResults : Nat) :
    if useCustomQuery = true ∧ jsTrim customGroqQuery ≠ "" then
      buildQuery useCustomQuery customGroqQuery selectedType availableTypes
        searchQuery maxResults = customGroqQuery
    else
      ∃ p, buildQuery useCustomQuery customGroqQuery selectedType availableTypes
          searchQuery maxResults
        = p ++ ("][0..." ++ toString maxResults ++ "] " ++ projectionBlock) := by
  by_cases h : useCustomQuery = true ∧ jsTrim customGroqQuery ≠ ""
  · rw [if_pos h]
    unfold buildQuery
    rw [if_pos h]
  · rw [if_neg h]
    unfold buildQuery
    rw [if_neg h]
    by_cases hc : (buildConditions selectedType availableTypes searchQuery).length > 0
    · refine ⟨"*[" ++ String.intercalate (" && ")
          (buildConditions selectedType availableTypes searchQuery), ?_⟩
      simp [hc, String.append_assoc]
    · refine ⟨"*[", ?_⟩
      simp [hc, ← String.append_assoc]

/-- Witness for C7 exercising both branches: a non-blank custom query "*"
is returned verbatim, and a built query for term "acme" ends with the cap
at 100 and the projection block. -/
theorem c7_query_cap_and_projection_witness :
    buildQuery true ("*") ("all") [] ("") 100 = "*" ∧
    (∃ p, buildQuery false ("") ("all") [] ("acme") 100
        = p ++ ("][0..." ++ toString 100 ++ "] " ++ projectionBlock)) := by
  have h1 := c7_query_cap_and_projection true ("*") ("all") [] ("") 100
  have h2 := c7_query_cap_and_projection false ("") ("all") [] ("acme") 100
  rw [if_pos (by decide)] at h1
  rw [if_neg (by decide)] at h2
  exact ⟨h1, h2⟩

end SearchAndDelete
